import Mathlib

/-!
Shallow embedding of the botcrafter task-queue service (src/botcrafter.py)
and verification of its specification.

The Flask handlers are modelled as pure functions from request fields and a
task-table state to a new state and a response.  JSON request fields are
modelled by `JVal` (so that Python truthiness of `data.get(...)` is exact),
and the MySQL `tasks` table by a list of rows plus the AUTO_INCREMENT
counter.  SQL statements appearing in the source are translated literally:
in particular, `SELECT ... WHERE ...` with no `ORDER BY` returns the
matching rows in table order, and `UPDATE ... WHERE task_id = %s` updates
every row whose `task_id` equals the parameter, succeeding also when no row
matches.
-/

namespace Botcrafter

/-- A JSON value as produced by Flask's `request.get_json()` / `data.get(...)`.
`jnull` stands for a missing field (`data.get` returns `None`). -/
inductive JVal where
  | jnull
  | jint (n : Int)
  | jstr (s : String)
  | jbool (b : Bool)
deriving Repr, DecidableEq

/-- Python truthiness, as used by the handlers' `if not x:` checks:
`None`, `0`, `""` and `False` are falsy. -/
def JVal.truthy : JVal → Bool
  | .jnull => false
  | .jint n => n != 0
  | .jstr s => s != ""
  | .jbool b => b

/-- MySQL comparison `task_id = %s` for a parameter coming from JSON.
Integers compare exactly; booleans are sent by the connector as 0/1.
Other JSON types never reach the store in the routes under verification
(string-to-number coercion is outside the claims). -/
def JVal.sqlEqId : JVal → Nat → Bool
  | .jint n, tid => n == (tid : Int)
  | .jbool b, tid => (if b then (1 : Int) else 0) == (tid : Int)
  | _, _ => false

/-- Rendering of a JSON parameter into a VARCHAR column (`SET status = %s`).
Only strings occur in the verified scenarios. -/
def JVal.toSqlString : JVal → String
  | .jstr s => s
  | .jint n => toString n
  | .jbool b => if b then "1" else "0"
  | .jnull => ""

/-- A row of the `tasks` table
(`tasks(task_id PK autoincrement, task_type, status, assigned_to, priority,
details, fast_interval boolean default false, created_at timestamp default now)`). -/
structure Task where
  task_id : Nat
  task_type : String
  status : String
  assigned_to : String
  priority : Int
  details : String
  fast_interval : Bool
  created_at : Nat
deriving Repr, DecidableEq

/-- A row of the `logs` table (see the `CREATE TABLE IF NOT EXISTS logs`
statement in `log_event`). -/
structure LogEvent where
  id : Nat
  event_type : String
  details : String
  logged_at : Nat
deriving Repr, DecidableEq

/-- The `tasks` table: its rows in table (insertion) order together with the
AUTO_INCREMENT counter that assigns the next `task_id`. -/
structure TaskTable where
  nextId : Nat
  rows : List Task
deriving Repr, DecidableEq

/-- An HTTP response of the service: a JSON body with `status`
`"success"` or `"error"` plus the payload field used by the endpoint. -/
inductive Resp where
  | ok (message : String)
  | okTasks (tasks : List Task)
  | okLogs (logs : List LogEvent)
  | err (code : Nat) (message : String)
deriving Repr, DecidableEq

/-- The `before_request` hook: `token = request.headers.get("Authorization")`
(`none` when the header is absent) is compared with `API_TOKEN`
(`os.getenv`, `none` when the variable is unset) by plain `!=`.
On mismatch it short-circuits with 401; on equality it returns `none`
and Flask proceeds to the handler. -/
def before_request (authHeader apiToken : Option String) : Option Resp :=
  if authHeader ≠ apiToken then some (.err 401 "Unauthorized") else none

/-- Dispatch of one request: the `before_request` hook runs first and, when
it returns a response, the handler is never invoked and the state is
unchanged. -/
def handle (authHeader apiToken : Option String)
    (op : TaskTable → TaskTable × Resp) (tbl : TaskTable) : TaskTable × Resp :=
  match before_request authHeader apiToken with
  | some r => (tbl, r)
  | none => op tbl

/-- `SELECT * FROM tasks WHERE status = 'pending'` — no `ORDER BY`, so the
matching rows are returned in table order. -/
def selectPendingTasks (tbl : TaskTable) : List Task :=
  tbl.rows.filter (fun t => t.status == "pending")

/-- Handler of `GET /get_pending_tasks`. -/
def get_pending_tasks (tbl : TaskTable) : TaskTable × Resp :=
  (tbl, .okTasks (selectPendingTasks tbl))

/-- `SELECT * FROM tasks WHERE fast_interval = TRUE AND status = 'pending'`
— again no `ORDER BY`. -/
def selectHighPriorityTasks (tbl : TaskTable) : List Task :=
  tbl.rows.filter (fun t => t.fast_interval && t.status == "pending")

/-- Handler of `GET /get_high_priority_tasks`. -/
def get_high_priority_tasks (tbl : TaskTable) : TaskTable × Resp :=
  (tbl, .okTasks (selectHighPriorityTasks tbl))

/-- Modelled from the spec: the `tasks` table schema is not under src/
(only the INSERT statement is); §6 of the spec gives
`tasks(task_id PK autoincrement, ..., fast_interval boolean default false,
created_at timestamp default now)`.  This is the store side of
`INSERT INTO tasks (task_type, status, assigned_to, priority, details)
VALUES (%s, 'pending', %s, %s, %s)`: the named columns come from the
statement, `task_id` is assigned from the AUTO_INCREMENT counter, and
`fast_interval`/`created_at` are filled from the schema defaults. -/
def insertTaskRow (now : Nat) (task_type : String) (status : String)
    (assigned_to : String) (priority : Int) (details : String)
    (tbl : TaskTable) : TaskTable :=
  { nextId := tbl.nextId + 1
    rows := tbl.rows ++
      [{ task_id := tbl.nextId
         task_type := task_type
         status := status
         assigned_to := assigned_to
         priority := priority
         details := details
         fast_interval := false
         created_at := now }] }

/-- Handler of `POST /add_task`.  `task_type` and `assigned_to` come from
`data.get(...)` (possibly `None`); `priority` defaults to 1 and `details`
to `""` via `data.get('priority', 1)` / `data.get('details', '')`.
After the truthiness validation, the INSERT writes the status literal
`'pending'` and the store fills the remaining columns (`insertTaskRow`). -/
def add_task (now : Nat) (task_type assigned_to : Option String)
    (priority : Option Int) (details : Option String)
    (tbl : TaskTable) : TaskTable × Resp :=
  if task_type.getD "" = "" ∨ assigned_to.getD "" = "" then
    (tbl, .err 400 "Task-Typ oder zugewiesener GPT fehlt")
  else
    (insertTaskRow now (task_type.getD "") "pending" (assigned_to.getD "")
      (priority.getD 1) (details.getD "") tbl,
     .ok "Task erfolgreich hinzugefügt")

/-- Handler of `POST /update_task_status`: validates Python truthiness of
`task_id` and `status`, then runs
`UPDATE tasks SET status = %s WHERE task_id = %s` — every matching row is
updated and the handler reports success regardless of the affected-row
count. -/
def update_task_status (task_id status : JVal) (tbl : TaskTable) :
    TaskTable × Resp :=
  if ¬ task_id.truthy ∨ ¬ status.truthy then
    (tbl, .err 400 "Task-ID oder Status fehlt")
  else
    ({ tbl with
        rows := tbl.rows.map (fun t =>
          if task_id.sqlEqId t.task_id then { t with status := status.toSqlString }
          else t) },
     .ok "Task-Status aktualisiert")

/-- Handler of `POST /mark_task_intensive`: validates truthiness of
`task_id`, then runs
`UPDATE tasks SET fast_interval = TRUE WHERE task_id = %s`, reporting
success regardless of the affected-row count. -/
def mark_task_intensive (task_id : JVal) (tbl : TaskTable) :
    TaskTable × Resp :=
  if ¬ task_id.truthy then
    (tbl, .err 400 "Task-ID fehlt")
  else
    ({ tbl with
        rows := tbl.rows.map (fun t =>
          if task_id.sqlEqId t.task_id then { t with fast_interval := true }
          else t) },
     .ok "Task als intensiv markiert")

/-- The ordering `ORDER BY logged_at DESC` as a relation on log rows. -/
def logDescRel (a b : LogEvent) : Prop := b.logged_at ≤ a.logged_at

instance : DecidableRel logDescRel := fun a b =>
  inferInstanceAs (Decidable (b.logged_at ≤ a.logged_at))

instance : IsTotal LogEvent logDescRel :=
  ⟨fun a b => le_total b.logged_at a.logged_at⟩

instance : IsTrans LogEvent logDescRel :=
  ⟨fun _ _ _ h1 h2 => le_trans h2 h1⟩

/-- `SELECT * FROM logs ORDER BY logged_at DESC LIMIT 100`. -/
def selectRecentLogs (logs : List LogEvent) : List LogEvent :=
  (List.insertionSort logDescRel logs).take 100

/-- Handler of `GET /get_logs`. -/
def get_logs (logs : List LogEvent) : Resp :=
  .okLogs (selectRecentLogs logs)

/-- The ordering the specification claims for the pending-task list:
priority descending, then `created_at` ascending. -/
def pendingOrder (a b : Task) : Prop :=
  b.priority < a.priority ∨ (a.priority = b.priority ∧ a.created_at ≤ b.created_at)

instance : DecidableRel pendingOrder := fun a b =>
  inferInstanceAs (Decidable (b.priority < a.priority ∨
    (a.priority = b.priority ∧ a.created_at ≤ b.created_at)))

/-- A table holding two pending tasks in insertion order, the earlier one
with the lower priority. -/
def twoTaskTable : TaskTable :=
  { nextId := 3
    rows :=
      [{ task_id := 1, task_type := "scan", status := "pending",
         assigned_to := "bot1", priority := 1, details := "",
         fast_interval := false, created_at := 10 },
       { task_id := 2, task_type := "scan", status := "pending",
         assigned_to := "bot2", priority := 5, details := "",
         fast_interval := false, created_at := 11 }] }

/-- C1 counterexample: the pending-task query has no `ORDER BY`, so on a
table whose first row has priority 1 and whose second row has priority 5
the returned list violates the claimed (priority desc, created_at asc)
ordering. -/
theorem getPendingTasks_order_counterexample :
    ¬ List.Pairwise pendingOrder (selectPendingTasks twoTaskTable) := by
  decide

/-- C1 (amended): `GET /get_pending_tasks` returns exactly the tasks with
status `"pending"`, in the table's row order (a sublist of the table);
no priority or creation-time ordering is applied. -/
theorem getPendingTasks_returns_pending_in_table_order (tbl : TaskTable) :
    get_pending_tasks tbl = (tbl, .okTasks (selectPendingTasks tbl)) ∧
    (∀ t, t ∈ selectPendingTasks tbl ↔ t ∈ tbl.rows ∧ t.status = "pending") ∧
    (selectPendingTasks tbl).Sublist tbl.rows := by
  refine ⟨rfl, ?_, List.filter_sublist _⟩
  intro t
  simp [selectPendingTasks, List.mem_filter]

/-- C2: `GET /get_high_priority_tasks` returns exactly the subset of the
pending-task list whose `fast_interval` flag is true: every returned task
is pending with `fast_interval = true`, and every such task in the table
is returned. -/
theorem getHighPriorityTasks_subset_of_pending (tbl : TaskTable) :
    get_high_priority_tasks tbl = (tbl, .okTasks (selectHighPriorityTasks tbl)) ∧
    selectHighPriorityTasks tbl =
      (selectPendingTasks tbl).filter (fun t => t.fast_interval) ∧
    (∀ t, t ∈ selectHighPriorityTasks tbl ↔
      t ∈ tbl.rows ∧ t.status = "pending" ∧ t.fast_interval = true) := by
  refine ⟨rfl, ?_, ?_⟩
  · simp only [selectHighPriorityTasks, selectPendingTasks, List.filter_filter]
  · intro t
    simp only [selectHighPriorityTasks, List.mem_filter, Bool.and_eq_true,
      beq_iff_eq]
    tauto

/-- C5: `GET /get_logs` returns at most 100 rows, ordered by `logged_at`
descending (newest first). -/
theorem getLogs_limit_and_order (logs : List LogEvent) :
    get_logs logs = .okLogs (selectRecentLogs logs) ∧
    (selectRecentLogs logs).length ≤ 100 ∧
    (selectRecentLogs logs).Pairwise
      (fun a b => b.logged_at ≤ a.logged_at) := by
  refine ⟨rfl, ?_, ?_⟩
  · exact (List.length_take_le _ _)
  · exact List.Pairwise.sublist (List.take_sublist _ _)
      (List.sorted_insertionSort logDescRel logs)

/-- An empty task table with AUTO_INCREMENT counter at 1. -/
def emptyTable : TaskTable := { nextId := 1, rows := [] }

/-- C8: any request whose `Authorization` header differs from the
configured token is rejected with 401 and the unauthorized body before the
requested operation runs: the state is unchanged and the handler is never
invoked. -/
theorem mismatched_token_rejected_before_handler (h a : Option String)
    (hne : h ≠ a) (op : TaskTable → TaskTable × Resp) (tbl : TaskTable) :
    handle h a op tbl = (tbl, .err 401 "Unauthorized") := by
  simp [handle, before_request, hne]

/-- Witness for C8 at a concrete mismatched token. -/
theorem mismatched_token_rejected_before_handler_witness :
    handle (some "Bearer x") (some "Bearer y") get_pending_tasks emptyTable =
      (emptyTable, .err 401 "Unauthorized") :=
  mismatched_token_rejected_before_handler (some "Bearer x") (some "Bearer y")
    (by decide) get_pending_tasks emptyTable

/-- C10: the authorization check is plain equality with no presence check:
with no configured token, a request without an `Authorization` header
passes the check; with a configured token, a request without the header is
rejected with 401. -/
theorem auth_check_is_plain_equality (t : String) :
    before_request none none = none ∧
    before_request none (some t) = some (.err 401 "Unauthorized") := by
  simp [before_request]

/-- C4: an enqueue whose `task_type` or `assigned_to` is missing or empty
fails with the 400 validation response and leaves the task table
unchanged (no store call is modelled in this branch of the handler). -/
theorem addTask_missing_field_rejected (now : Nat) (tt ato : Option String)
    (p : Option Int) (d : Option String) (tbl : TaskTable)
    (hmiss : tt.getD "" = "" ∨ ato.getD "" = "") :
    add_task now tt ato p d tbl =
      (tbl, .err 400 "Task-Typ oder zugewiesener GPT fehlt") := by
  simp [add_task, hmiss]

/-- Witness for C4: enqueue with `assigned_to` missing. -/
theorem addTask_missing_field_rejected_witness :
    add_task 0 (some "scan") none none none emptyTable =
      (emptyTable, .err 400 "Task-Typ oder zugewiesener GPT fehlt") :=
  addTask_missing_field_rejected 0 (some "scan") none none none emptyTable
    (by decide)

/-- C9: a `task_id` that is present but falsy (0, `""` or `false`) is
rejected by the truthiness check of `/update_task_status` and
`/mark_task_intensive` as if it were missing: 400 response, no store call,
table unchanged — so a task with id 0 can never be updated or marked. -/
theorem falsy_taskId_rejected_as_missing (tbl : TaskTable) (v s : JVal)
    (hfalsy : v = .jint 0 ∨ v = .jstr "" ∨ v = .jbool false) :
    update_task_status v s tbl = (tbl, .err 400 "Task-ID oder Status fehlt") ∧
    mark_task_intensive v tbl = (tbl, .err 400 "Task-ID fehlt") := by
  rcases hfalsy with h | h | h <;> subst h <;>
    simp [update_task_status, mark_task_intensive, JVal.truthy]

/-- Witness for C9 at `task_id = 0`. -/
theorem falsy_taskId_rejected_as_missing_witness :
    update_task_status (.jint 0) (.jstr "done") emptyTable =
      (emptyTable, .err 400 "Task-ID oder Status fehlt") ∧
    mark_task_intensive (.jint 0) emptyTable =
      (emptyTable, .err 400 "Task-ID fehlt") :=
  falsy_taskId_rejected_as_missing emptyTable (.jint 0) (.jstr "done")
    (Or.inl rfl)

/-- C3: a valid enqueue (non-empty `task_type` and `assigned_to`) appends
one row with status `"pending"` and `fast_interval = false`; an
unspecified priority defaults to 1 and unspecified details to `""`; and,
assuming the AUTO_INCREMENT invariant (all stored ids are below the
counter), the new id is strictly greater than every previously created
task's id, and the invariant is preserved. -/
theorem addTask_creates_pending_task (now : Nat) (tt ato : String)
    (p : Option Int) (d : Option String) (tbl : TaskTable)
    (htt : tt ≠ "") (hato : ato ≠ "")
    (hinv : ∀ t ∈ tbl.rows, t.task_id < tbl.nextId) :
    ∃ row,
      (add_task now (some tt) (some ato) p d tbl).1.rows = tbl.rows ++ [row] ∧
      (add_task now (some tt) (some ato) p d tbl).2 =
        .ok "Task erfolgreich hinzugefügt" ∧
      row.status = "pending" ∧
      row.fast_interval = false ∧
      (p = none → row.priority = 1) ∧
      (d = none → row.details = "") ∧
      (∀ t ∈ tbl.rows, t.task_id < row.task_id) ∧
      (∀ t ∈ (add_task now (some tt) (some ato) p d tbl).1.rows,
        t.task_id < (add_task now (some tt) (some ato) p d tbl).1.nextId) := by
  have hrows : (add_task now (some tt) (some ato) p d tbl).1.rows =
      tbl.rows ++
        [{ task_id := tbl.nextId, task_type := tt, status := "pending",
           assigned_to := ato, priority := p.getD 1, details := d.getD "",
           fast_interval := false, created_at := now }] := by
    simp [add_task, insertTaskRow, htt, hato]
  have hnext : (add_task now (some tt) (some ato) p d tbl).1.nextId =
      tbl.nextId + 1 := by
    simp [add_task, insertTaskRow, htt, hato]
  refine ⟨_, hrows, ?_, rfl, rfl, ?_, ?_, ?_, ?_⟩
  · simp [add_task, htt, hato]
  · intro hp; simp [hp]
  · intro hd; simp [hd]
  · intro t ht; exact hinv t ht
  · intro t ht
    rw [hrows] at ht
    rw [hnext]
    rcases List.mem_append.mp ht with ht | ht
    · exact Nat.lt_succ_of_lt (hinv t ht)
    · rcases List.mem_singleton.mp ht with rfl
      exact Nat.lt_succ_self _

/-- Witness for C3: enqueue into the empty table with priority and details
unspecified. -/
theorem addTask_creates_pending_task_witness :
    ∃ row,
      (add_task 7 (some "scan") (some "bot1") none none emptyTable).1.rows =
        emptyTable.rows ++ [row] ∧
      (add_task 7 (some "scan") (some "bot1") none none emptyTable).2 =
        .ok "Task erfolgreich hinzugefügt" ∧
      row.status = "pending" ∧
      row.fast_interval = false ∧
      (none = (none : Option Int) → row.priority = 1) ∧
      (none = (none : Option String) → row.details = "") ∧
      (∀ t ∈ emptyTable.rows, t.task_id < row.task_id) ∧
      (∀ t ∈ (add_task 7 (some "scan") (some "bot1") none none emptyTable).1.rows,
        t.task_id <
          (add_task 7 (some "scan") (some "bot1") none none emptyTable).1.nextId) :=
  addTask_creates_pending_task 7 "scan" "bot1" none none emptyTable
    (by decide) (by decide) (by simp [emptyTable])

/-- C7 counterexample: on the empty table, updating or marking the
nonexistent task id 5 affects zero rows, yet both handlers report plain
success — no `NotFoundError` semantics are communicated to the caller. -/
theorem zero_row_update_reports_success :
    update_task_status (.jint 5) (.jstr "done") emptyTable =
      (emptyTable, .ok "Task-Status aktualisiert") ∧
    mark_task_intensive (.jint 5) emptyTable =
      (emptyTable, .ok "Task als intensiv markiert") := by
  constructor <;> rfl

/-- C7 (amended): when a truthy `task_id` matches no row of the table,
`update_task_status` and `mark_task_intensive` are silent no-ops: they
leave the table unchanged and report success, never a not-found error. -/
theorem zero_row_update_is_silent_noop (v s : JVal) (tbl : TaskTable)
    (hmatch : ∀ t ∈ tbl.rows, v.sqlEqId t.task_id = false)
    (hv : v.truthy = true) (hs : s.truthy = true) :
    update_task_status v s tbl = (tbl, .ok "Task-Status aktualisiert") ∧
    mark_task_intensive v tbl = (tbl, .ok "Task als intensiv markiert") := by
  have hmap : ∀ f : Task → Task,
      tbl.rows.map (fun t => if v.sqlEqId t.task_id then f t else t) =
        tbl.rows := by
    intro f
    calc tbl.rows.map (fun t => if v.sqlEqId t.task_id then f t else t)
        = tbl.rows.map id :=
          List.map_congr_left (fun t ht => by simp [hmatch t ht])
      _ = tbl.rows := List.map_id _
  obtain ⟨n, r⟩ := tbl
  constructor
  · simp only [update_task_status, hv, hs]
    simp [hmap]
  · simp only [mark_task_intensive, hv]
    simp [hmap]

/-- Witness for C7's amended statement: truthy id 5 on a table holding
only tasks 1 and 2. -/
theorem zero_row_update_is_silent_noop_witness :
    update_task_status (.jint 5) (.jstr "done") twoTaskTable =
      (twoTaskTable, .ok "Task-Status aktualisiert") ∧
    mark_task_intensive (.jint 5) twoTaskTable =
      (twoTaskTable, .ok "Task als intensiv markiert") :=
  zero_row_update_is_silent_noop (.jint 5) (.jstr "done") twoTaskTable
    (by decide) rfl rfl

/-- C6: `POST /mark_task_intensive` is idempotent — two successive calls
with the same `task_id` produce the same table as one — and no core
operation (`add_task`, `update_task_status`, `mark_task_intensive`)
resets `fast_interval` from true to false: every row that had the flag
set keeps a row with the same id and the flag still set. -/
theorem markIntensive_idempotent_and_flag_monotone (v sv : JVal) (now : Nat)
    (tt ato : Option String) (p : Option Int) (d : Option String)
    (tbl : TaskTable) :
    (mark_task_intensive v (mark_task_intensive v tbl).1).1 =
      (mark_task_intensive v tbl).1 ∧
    (∀ t ∈ tbl.rows, t.fast_interval = true →
      (∃ t' ∈ (add_task now tt ato p d tbl).1.rows,
        t'.task_id = t.task_id ∧ t'.fast_interval = true) ∧
      (∃ t' ∈ (update_task_status v sv tbl).1.rows,
        t'.task_id = t.task_id ∧ t'.fast_interval = true) ∧
      (∃ t' ∈ (mark_task_intensive v tbl).1.rows,
        t'.task_id = t.task_id ∧ t'.fast_interval = true)) := by
  constructor
  · by_cases hv : v.truthy = true
    · simp [mark_task_intensive, hv]
      intro a _ hga
      by_cases hm : v.sqlEqId a.task_id = true
      · simp [hm]
      · rw [if_neg hm] at hga
        exact absurd hga hm
    · simp [mark_task_intensive, hv]
  · intro t ht htf
    refine ⟨?_, ?_, ?_⟩
    · rcases Decidable.em (tt.getD "" = "" ∨ ato.getD "" = "") with hval | hval
      · refine ⟨t, ?_, rfl, htf⟩
        simp only [add_task]
        rw [if_pos hval]
        exact ht
      · refine ⟨t, ?_, rfl, htf⟩
        simp only [add_task]
        rw [if_neg hval]
        exact List.mem_append_left _ ht
    · rcases Decidable.em (¬ v.truthy = true ∨ ¬ sv.truthy = true) with
        hval | hval
      · refine ⟨t, ?_, rfl, htf⟩
        simp only [update_task_status]
        rw [if_pos hval]
        exact ht
      · refine ⟨if v.sqlEqId t.task_id then { t with status := sv.toSqlString }
          else t, ?_, ?_, ?_⟩
        · simp only [update_task_status]
          rw [if_neg hval]
          exact List.mem_map_of_mem _ ht
        · by_cases hm : v.sqlEqId t.task_id = true <;> simp [hm]
        · by_cases hm : v.sqlEqId t.task_id = true <;> simp [hm, htf]
    · by_cases hv : v.truthy = true
      · refine ⟨if v.sqlEqId t.task_id then { t with fast_interval := true }
          else t, ?_, ?_, ?_⟩
        · simp only [mark_task_intensive]
          rw [if_neg (not_not_intro hv)]
          exact List.mem_map_of_mem _ ht
        · by_cases hm : v.sqlEqId t.task_id = true <;> simp [hm]
        · by_cases hm : v.sqlEqId t.task_id = true <;> simp [hm, htf]
      · refine ⟨t, ?_, rfl, htf⟩
        simp only [mark_task_intensive]
        rw [if_pos hv]
        exact ht

/-- A table holding one pending task whose `fast_interval` flag is set. -/
def markedTable : TaskTable :=
  { nextId := 2
    rows := [{ task_id := 1, task_type := "scan", status := "pending",
               assigned_to := "bot1", priority := 1, details := "",
               fast_interval := true, created_at := 3 }] }

/-- Witness for C6: marking task 1 twice equals marking it once, and a
status update keeps its `fast_interval` flag set. -/
theorem markIntensive_idempotent_and_flag_monotone_witness :
    (mark_task_intensive (.jint 1)
        (mark_task_intensive (.jint 1) markedTable).1).1 =
      (mark_task_intensive (.jint 1) markedTable).1 ∧
    (∃ t' ∈ (update_task_status (.jint 1) (.jstr "done") markedTable).1.rows,
      t'.task_id = 1 ∧ t'.fast_interval = true) := by
  have h := markIntensive_idempotent_and_flag_monotone (.jint 1) (.jstr "done")
    0 (some "scan") (some "bot1") none none markedTable
  refine ⟨h.1, ?_⟩
  exact (h.2 { task_id := 1, task_type := "scan", status := "pending",
               assigned_to := "bot1", priority := 1, details := "",
               fast_interval := true, created_at := 3 }
    (by simp [markedTable]) rfl).2.1

end Botcrafter
